import Mathlib

/-!
Verification development for the `groseri_dashboard` retail-operations
dashboard.  The KPI / normalization core of `groseri_dashboard.py` is
shallowly embedded below: pandas cells that may fail numeric coercion are
modelled by `RCell` (a parsed rational, a missing value, or an unparsable
value), date cells by `DateCell`, a sales table by `SalesTable` (a list of
rows plus a flag recording whether the line-total column is present), and
each pipeline stage (normalization, June-baseline trend, promo KPIs,
pricing margin with IEEE-style infinities, expiry status, RAG
classification) by a Lean function translated from the corresponding
Python lines.
-/

namespace Groseri

/-- A numeric cell as it arrives from a spreadsheet: a parsed number, a
missing value (pandas `NaN`), or an unparsable value (a string that
`float` rejects). -/
inductive RCell where
  | num (q : ℚ)
  | rnan
  | rbad
deriving DecidableEq, Repr

/-- Model of `safe_convert_num` (lines 58-62): `float(x)` succeeds exactly
on numeric cells (and is the identity there, `float(nan)` staying `nan`,
modelled as `rnan`); every failure is caught and becomes `NaN`. -/
def safe_convert_num : RCell → RCell
  | .num q => .num q
  | .rnan => .rnan
  | .rbad => .rnan

/-- The rational carried by a cell, if any. -/
def RCell.val : RCell → Option ℚ
  | .num q => some q
  | _ => none

/-- Whether a cell is undefined after coercion (pandas `isnull`). -/
def RCell.isNA : RCell → Bool
  | .num _ => false
  | _ => true

/-- Pandas elementwise multiplication of two cells (the product of the
Qty and Harga columns, line 113): `NaN` when either operand is
undefined. -/
def cellMul : RCell → RCell → RCell
  | .num a, .num b => .num (a * b)
  | _, _ => .rnan

/-- A date cell: a parsed calendar date (year and month are all the
pipeline consumes), a missing date (`NaT`), or an unparsable value. -/
inductive DateCell where
  | dt (year : Int) (month : Nat)
  | dna
  | dbad
deriving DecidableEq, Repr

/-- Model of `pd.to_datetime` with coercing error handling (line 100): already
parsed dates are untouched, everything else becomes `NaT` (`dna`). -/
def parseDateCell : DateCell → DateCell
  | .dt y m => .dt y m
  | _ => .dna

/-- `Tanggal.dt.year` (line 117): the year of a parsed date, `NaN`
otherwise. -/
def DateCell.yearOf : DateCell → Option Int
  | .dt y _ => some y
  | _ => none

/-- `Tanggal.dt.month == 6` (line 123): false on `NaT`. -/
def DateCell.isJune : DateCell → Bool
  | .dt _ m => m == 6
  | _ => false

/-- One row of the Sales sheet.  `year` is the derived `Year` column that
normalization (line 117) overwrites from the parsed date. -/
structure SRow where
  tanggal : DateCell
  produk : String
  qty : RCell
  harga : RCell
  total : RCell
  stokAwal : RCell
  sisaStok : RCell
  year : Option Int
deriving DecidableEq, Repr

/-- The Sales table: its rows plus whether a `Total` column is present
(the membership test on `sales.columns`, line 112). -/
structure SalesTable where
  rows : List SRow
  hasTotal : Bool
deriving DecidableEq, Repr

/-- Per-row cell coercion of normalization (lines 99-109): the date column
through coercing `to_datetime` and each numeric column through
`safe_convert_num`. -/
def coerceRow (r : SRow) : SRow :=
  { r with
    tanggal := parseDateCell r.tanggal
    qty := safe_convert_num r.qty
    harga := safe_convert_num r.harga
    total := safe_convert_num r.total
    stokAwal := safe_convert_num r.stokAwal
    sisaStok := safe_convert_num r.sisaStok }

/-- The condition of line 112: the `Total` column is absent, or every one
of its cells is undefined after coercion. -/
def needTotal (t : SalesTable) : Bool :=
  !t.hasTotal || (t.rows.map coerceRow).all (fun r => r.total.isNA)

/-- The derivation step on one coerced row: recompute `Total` as
`Qty * Harga` when line 113 fires, and derive the `Year` column from the
parsed date (line 117). -/
def deriveRow (recompute : Bool) (r : SRow) : SRow :=
  { r with
    total := if recompute then cellMul r.qty r.harga else r.total
    year := r.tanggal.yearOf }

/-- The sales-normalization stage (lines 99-117): coerce the date and
numeric columns; if the `Total` column is absent or entirely undefined
after coercion, recompute it as `Qty * Harga` per row (lines 112-113); and
derive the `Year` column from the parsed date (line 117). -/
def normalize (t : SalesTable) : SalesTable :=
  ⟨(t.rows.map coerceRow).map (deriveRow (needTotal t)), true⟩

/-- The records of a (product, year) group dated in calendar June
(lines 123-126): month of the parsed date is 6 and the `Year` column
matches the group key. -/
def juneRows (rows : List SRow) (p : String) (y : Int) : List SRow :=
  rows.filter (fun r => r.produk == p && r.tanggal.isJune && r.year == some y)

/-- `june_totals` (lines 123-126) for one (product, year) key: the pandas
groupby-sum of the June line totals, skipping undefined cells; `none` when
the group has no June record at all (then the left-merge of line 129
leaves `JuneTotal` as `NaN`). -/
def june_totals (rows : List SRow) (p : String) (y : Int) : Option ℚ :=
  let js := juneRows rows p y
  if js.isEmpty then none
  else some ((js.map (fun r => (r.total.val).getD 0)).sum)

/-- `compute_trend` (lines 132-143) for one row of a normalized table:
against the own (product, year) June baseline of the row, `NaN` when that
baseline is missing or exactly zero, otherwise `total / baseline - 1`
(itself `NaN` when the total of the row is undefined). -/
def compute_trend (rows : List SRow) (r : SRow) : Option ℚ :=
  match r.year with
  | none => none
  | some y =>
    match june_totals rows r.produk y with
    | none => none
    | some jt =>
      if jt = 0 then none
      else (r.total.val).map (fun t => t / jt - 1)

/-- One row of the Promo sheet, after the `safe_convert_num` coercion of
lines 149-151 (so each field is a rational or undefined). -/
structure PromoRow where
  target : RCell
  actual : RCell
  biaya : RCell
deriving DecidableEq, Repr

/-- The Promo table after coercion. -/
abbrev PromoTable := List PromoRow

/-- `total_actual` (line 153): pandas column sum, skipping `NaN`s (the sum
of an empty or all-undefined column is `0`). -/
def total_actual (promo : PromoTable) : ℚ :=
  (promo.map (fun r => ((safe_convert_num r.actual).val).getD 0)).sum

/-- `total_target` (line 154), same pandas sum over the target column. -/
def total_target (promo : PromoTable) : ℚ :=
  (promo.map (fun r => ((safe_convert_num r.target).val).getD 0)).sum

/-- `pencapaian` (line 155): sales attainment `total_actual /
total_target`, `NaN` when the target sum is falsy or zero (for a float
sum, exactly when it is zero). -/
def pencapaian (promo : PromoTable) : Option ℚ :=
  if total_target promo ≠ 0 then some (total_actual promo / total_target promo)
  else none

/-- Per-row promotion `ROI` (line 165): `(Actual - Target) / Biaya` when
the cost is truthy and nonzero (for a float cell: defined and nonzero —
`NaN` is truthy in Python — so only a zero or missing cost short-circuits
to `NaN`); the quotient itself is `NaN` when actual or target is
undefined. -/
def promoROI (r : PromoRow) : Option ℚ :=
  match (safe_convert_num r.biaya).val with
  | none => none
  | some c =>
    if c = 0 then none
    else
      match (safe_convert_num r.actual).val, (safe_convert_num r.target).val with
      | some a, some t => some ((a - t) / c)
      | _, _ => none

/-- `combined_roi` (line 168): the pandas mean of the ROI column, which
skips undefined entries and is `NaN` when every entry is undefined. -/
def combined_roi (promo : PromoTable) : Option ℚ :=
  let ds := promo.filterMap promoROI
  if ds.isEmpty then none else some (ds.sum / ds.length)

/-- An IEEE-style extended value, as pandas float arithmetic produces: a
finite value, plus or minus infinity, or `NaN`.  Pricing cells are never
run through `safe_convert_num` in the source, so the margin computation
(line 159) is raw float Series arithmetic, where division by zero yields a
signed infinity rather than `NaN`. -/
inductive XVal where
  | fin (q : ℚ)
  | pinf
  | ninf
  | nan
deriving DecidableEq, Repr

/-- pandas `isna` on an extended value: true only on `NaN` (infinities are
not missing). -/
def XVal.isNA : XVal → Bool
  | .nan => true
  | _ => false

/-- IEEE subtraction on extended values. -/
def XVal.sub : XVal → XVal → XVal
  | .nan, _ => .nan
  | _, .nan => .nan
  | .fin a, .fin b => .fin (a - b)
  | .fin _, .pinf => .ninf
  | .fin _, .ninf => .pinf
  | .pinf, .fin _ => .pinf
  | .pinf, .pinf => .nan
  | .pinf, .ninf => .pinf
  | .ninf, .fin _ => .ninf
  | .ninf, .pinf => .ninf
  | .ninf, .ninf => .nan

/-- IEEE addition on extended values. -/
def XVal.add : XVal → XVal → XVal
  | .nan, _ => .nan
  | _, .nan => .nan
  | .fin a, .fin b => .fin (a + b)
  | .fin _, .pinf => .pinf
  | .fin _, .ninf => .ninf
  | .pinf, .fin _ => .pinf
  | .pinf, .pinf => .pinf
  | .pinf, .ninf => .nan
  | .ninf, .fin _ => .ninf
  | .ninf, .pinf => .nan
  | .ninf, .ninf => .ninf

/-- IEEE division on extended values, as numpy true division behaves on
float arrays: a nonzero finite value divided by zero is a signed infinity,
`0 / 0` is `NaN`. -/
def XVal.div : XVal → XVal → XVal
  | .nan, _ => .nan
  | _, .nan => .nan
  | .fin a, .fin b =>
    if b = 0 then (if a = 0 then .nan else if 0 < a then .pinf else .ninf)
    else .fin (a / b)
  | .fin _, .pinf => .fin 0
  | .fin _, .ninf => .fin 0
  | .pinf, .fin b => if 0 ≤ b then .pinf else .ninf
  | .pinf, .pinf => .nan
  | .pinf, .ninf => .nan
  | .ninf, .fin b => if 0 ≤ b then .ninf else .pinf
  | .ninf, .pinf => .nan
  | .ninf, .ninf => .nan

/-- One row of the Pricing sheet, kept as raw float values (the source
never coerces this sheet). -/
structure PricingRow where
  hargaBeli : XVal
  hargaJual : XVal
deriving DecidableEq, Repr

/-- `Margin_pct` (line 159): `(Harga_Jual - Harga_Beli) / Harga_Jual` in
raw float Series arithmetic. -/
def margin_pct (r : PricingRow) : XVal :=
  (r.hargaJual.sub r.hargaBeli).div r.hargaJual

/-- Pandas `mean` of a float column: undefined entries are skipped, the
mean of an empty selection is `NaN`. -/
def xmean (l : List XVal) : XVal :=
  let ds := l.filter (fun v => !v.isNA)
  if ds.isEmpty then .nan
  else (ds.foldr XVal.add (.fin 0)).div (.fin ds.length)

/-- `avg_margin` (line 189): the mean of the margin column, guarded to
`NaN` when every margin is undefined (the guard is what the code writes;
the mean alone would already be `NaN` there). -/
def avg_margin (pricing : List PricingRow) : XVal :=
  if (pricing.map margin_pct).all XVal.isNA then .nan
  else xmean (pricing.map margin_pct)

/-- Expiry status labels produced at line 273. -/
inductive ExpStatus where
  | expired
  | almostExpired
  | ok
deriving DecidableEq, Repr

/-- `Days_to_Expiry` (line 272): the day difference between the parsed
expiry date and the reference date, `NaN` when the date failed to parse.
Dates here are modelled as day numbers. -/
def days_to_expiry (expDate : Option Int) (refDate : Int) : Option Int :=
  expDate.map (fun d => d - refDate)

/-- The `Status` classifier (line 273): Expired if d is below zero, else
Almost expired if d is at most 30, else OK.  On an undefined `d` (float
`NaN`) both comparisons are false, so the lambda returns OK. -/
def expStatus : Option Int → ExpStatus
  | none => .ok
  | some d => if d < 0 then .expired else if d ≤ 30 then .almostExpired else .ok

/-- The four RAG classification outcomes: the three tiers plus the white
"unknown" emoji. -/
inductive Tier where
  | green
  | yellow
  | red
  | white
deriving DecidableEq, Repr

/-- `rag_emoji` (lines 13-25): white on an undefined value (`pd.isna`
guard, and the surrounding `try/except` turns any comparison failure into
white as well), otherwise green / yellow / red by the two thresholds. -/
def rag_emoji (value : Option ℚ) (green yellow : ℚ) : Tier :=
  match value with
  | none => .white
  | some v => if green ≤ v then .green else if yellow ≤ v then .yellow else .red

/-- `rag_indicator` (lines 369-377): threshold classification of a plain
value, with a `reverse` flag for lower-is-better KPIs. -/
def rag_indicator (value : ℚ) (green_thr yellow_thr : ℚ) (reverse : Bool) : Tier :=
  if reverse then
    if value ≤ green_thr then .green
    else if value ≤ yellow_thr then .yellow
    else .red
  else
    if green_thr ≤ value then .green
    else if yellow_thr ≤ value then .yellow
    else .red

/-- How good a tier is: green best, red worst (white, unused by the
monotonicity claim, sits at the bottom). -/
def Tier.rank : Tier → Nat
  | .green => 3
  | .yellow => 2
  | .red => 1
  | .white => 0

/-!
Example tables used by concrete witnesses and counterexamples.
-/

/-- The example of the spec: Susu UHT 1L has two June 2025 records with
totals 300000 and 600000, and one July 2025 record with total 375000.
Rows are given in already-normalized form. -/
def exTrendRows : List SRow :=
  [ ⟨.dt 2025 6, "Susu UHT 1L", .num 20, .num 15000, .num 300000, .rnan, .rnan, some 2025⟩,
    ⟨.dt 2025 6, "Susu UHT 1L", .num 40, .num 15000, .num 600000, .rnan, .rnan, some 2025⟩,
    ⟨.dt 2025 7, "Susu UHT 1L", .num 25, .num 15000, .num 375000, .rnan, .rnan, some 2025⟩ ]

/-- The July record of `exTrendRows`. -/
def exJulyRow : SRow :=
  ⟨.dt 2025 7, "Susu UHT 1L", .num 25, .num 15000, .num 375000, .rnan, .rnan, some 2025⟩

/-- A sales table whose Total column is present and has one defined cell
(5) and one unparsable cell, while both rows have defined Qty (2) and
Harga (3). -/
def exMixedTotals : SalesTable :=
  ⟨[ ⟨.dt 2025 6, "A", .num 2, .num 3, .num 5, .rnan, .rnan, none⟩,
     ⟨.dt 2025 7, "A", .num 2, .num 3, .rbad, .rnan, .rnan, none⟩ ], true⟩

/-- A sales table whose Total column is present but entirely unparsable. -/
def exAllBadTotals : SalesTable :=
  ⟨[ ⟨.dt 2025 6, "A", .num 2, .num 3, .rbad, .rnan, .rnan, none⟩ ], true⟩

/-- A one-row sales table with an unparsable date and an unparsable
quantity. -/
def exBadCells : SalesTable :=
  ⟨[ ⟨.dbad, "B", .rbad, .num 7, .num 9, .rbad, .num 4, none⟩ ], true⟩

/-- A promo table whose single row has target 0, actual 10, cost 5. -/
def exZeroTarget : PromoTable := [⟨.num 0, .num 10, .num 5⟩]

/-- A promo table whose single row has a negative promotion cost. -/
def exNegCost : PromoTable := [⟨.num 0, .num 10, .num (-5)⟩]

/-- The sample promo row of the source: target 100000000, actual
115000000, cost 10000000. -/
def exSamplePromo : PromoTable := [⟨.num 100000000, .num 115000000, .num 10000000⟩]

/-!
Theorems for the claims.
-/

/-- C3: expiry status is a pure function of the day difference between
expiry date and reference date: a lot expiring exactly 30 days after the
reference date is Almost-expired, 31 days after is OK, one day before is
Expired; in general a negative difference is Expired, 0 to 30 days is
Almost-expired, and more than 30 days is OK. -/
theorem expiry_boundary :
    (∀ refDate : Int,
      expStatus (days_to_expiry (some (refDate + 30)) refDate) = ExpStatus.almostExpired) ∧
    (∀ refDate : Int,
      expStatus (days_to_expiry (some (refDate + 31)) refDate) = ExpStatus.ok) ∧
    (∀ refDate : Int,
      expStatus (days_to_expiry (some (refDate - 1)) refDate) = ExpStatus.expired) ∧
    (∀ d : Int, d < 0 → expStatus (some d) = ExpStatus.expired) ∧
    (∀ d : Int, 0 ≤ d → d ≤ 30 → expStatus (some d) = ExpStatus.almostExpired) ∧
    (∀ d : Int, 30 < d → expStatus (some d) = ExpStatus.ok) := by
  refine ⟨?_, ?_, ?_, ?_, ?_, ?_⟩
  · intro refDate
    have h : days_to_expiry (some (refDate + 30)) refDate = some 30 := by
      simp [days_to_expiry]
    rw [h]; decide
  · intro refDate
    have h : days_to_expiry (some (refDate + 31)) refDate = some 31 := by
      simp [days_to_expiry]
    rw [h]; decide
  · intro refDate
    have h : days_to_expiry (some (refDate - 1)) refDate = some (-1) := by
      simp [days_to_expiry]
    rw [h]; decide
  · intro d h
    simp only [expStatus]
    rw [if_pos h]
  · intro d h1 h2
    simp only [expStatus]
    rw [if_neg (by omega), if_pos h2]
  · intro d h
    simp only [expStatus]
    rw [if_neg (by omega), if_neg (by omega)]

/-- Witness for C3 at concrete day differences. -/
theorem expiry_boundary_witness :
    expStatus (some (-5)) = ExpStatus.expired ∧
    expStatus (some 12) = ExpStatus.almostExpired ∧
    expStatus (some 45) = ExpStatus.ok :=
  ⟨expiry_boundary.2.2.2.1 (-5) (by decide),
   expiry_boundary.2.2.2.2.1 12 (by decide) (by decide),
   expiry_boundary.2.2.2.2.2 45 (by decide)⟩

/-- C10: a lot whose expiry date failed to parse has undefined
days-to-expiry, and the status classifier assigns it OK — the best tier —
rather than Expired, Almost-expired, or an error (the classifier is total
and has no unknown outcome at all). -/
theorem expiry_unparsable_ok :
    (∀ refDate : Int, days_to_expiry none refDate = none) ∧
    expStatus none = ExpStatus.ok ∧
    ExpStatus.ok ≠ ExpStatus.expired ∧
    ExpStatus.ok ≠ ExpStatus.almostExpired :=
  ⟨fun _ => rfl, rfl, by decide, by decide⟩

/-- C4: an undefined metric value classifies as the white unknown tier,
never as red; in particular a promo table whose target-sales sum is 0 has
an undefined sales-attainment KPI, whose tier under the source thresholds
(green 1.0, yellow 0.8) is white. -/
theorem undefined_tier_unknown :
    (∀ g y : ℚ, rag_emoji none g y = Tier.white ∧ rag_emoji none g y ≠ Tier.red) ∧
    (∀ promo : PromoTable, total_target promo = 0 →
      pencapaian promo = none ∧
      rag_emoji (pencapaian promo) 1 (8/10) = Tier.white) := by
  constructor
  · intro g y
    exact ⟨rfl, by simp [rag_emoji]⟩
  · intro promo h
    have hp : pencapaian promo = none := by simp [pencapaian, h]
    exact ⟨hp, by rw [hp]; simp [rag_emoji]⟩

/-- Witness for C4 on a concrete zero-target promo table. -/
theorem undefined_tier_unknown_witness :
    pencapaian exZeroTarget = none ∧
    rag_emoji (pencapaian exZeroTarget) 1 (8/10) = Tier.white :=
  undefined_tier_unknown.2 exZeroTarget
    (by norm_num [total_target, exZeroTarget, safe_convert_num, RCell.val])

/-- C5: for defined metric values v1 ≤ v2 and ordered thresholds, the
non-reversed classifiers (`rag_indicator` with reverse off, and
`rag_emoji` on defined values) never rank v2 below v1, and the reversed
classifier (expiry risk) never ranks v2 above v1. -/
theorem classification_monotone :
    ∀ g y v1 v2 : ℚ, v1 ≤ v2 →
      (y ≤ g →
        Tier.rank (rag_indicator v1 g y false) ≤ Tier.rank (rag_indicator v2 g y false) ∧
        Tier.rank (rag_emoji (some v1) g y) ≤ Tier.rank (rag_emoji (some v2) g y)) ∧
      (g ≤ y →
        Tier.rank (rag_indicator v2 g y true) ≤ Tier.rank (rag_indicator v1 g y true)) := by
  intro g y v1 v2 h12
  constructor
  · intro hgy
    constructor
    · simp only [rag_indicator, Bool.false_eq_true, if_false]
      split_ifs <;> simp [Tier.rank] <;> linarith
    · simp only [rag_emoji]
      split_ifs <;> simp [Tier.rank] <;> linarith
  · intro hgy
    simp only [rag_indicator, if_true]
    split_ifs <;> simp [Tier.rank] <;> linarith

/-- C1: for every normalized sales table, the June baseline of a
(product, year) pair with at least one June record is the pandas sum of
the line totals of that pair restricted to calendar month 6; every
record computes its trend against its own (product, year) baseline as
total / baseline - 1, and the trend is undefined when the baseline is
missing (no June records, or an unparsable date on the record itself) or
exactly zero.  On the example of the spec — Susu UHT 1L in 2025 with June
totals 300000 and 600000 and a July record with total 375000 — the July
trend is 375000 / 900000 - 1 = -7/12. -/
theorem trend_vs_june (rows : List SRow) (r : SRow) :
    (∀ p : String, ∀ y : Int, juneRows rows p y ≠ [] →
      june_totals rows p y =
        some ((juneRows rows p y).map (fun s => (s.total.val).getD 0)).sum) ∧
    (r.year = none → compute_trend rows r = none) ∧
    (∀ y : Int, r.year = some y → june_totals rows r.produk y = none →
      compute_trend rows r = none) ∧
    (∀ y : Int, r.year = some y → june_totals rows r.produk y = some 0 →
      compute_trend rows r = none) ∧
    (∀ y : Int, ∀ jt t : ℚ, r.year = some y → june_totals rows r.produk y = some jt →
      jt ≠ 0 → r.total.val = some t → compute_trend rows r = some (t / jt - 1)) ∧
    compute_trend exTrendRows exJulyRow = some (-(7/12)) := by
  refine ⟨?_, ?_, ?_, ?_, ?_, ?_⟩
  · intro p y h
    simp only [june_totals]
    rw [if_neg]
    simp [h]
  · intro h
    simp [compute_trend, h]
  · intro y hy hj
    simp [compute_trend, hy, hj]
  · intro y hy hj
    simp [compute_trend, hy, hj]
  · intro y jt t hy hj hjt ht
    simp [compute_trend, hy, hj, hjt, ht]
  · simp only [compute_trend, june_totals, juneRows, exTrendRows, exJulyRow, RCell.val,
      DateCell.isJune, List.filter_cons, List.filter_nil]
    norm_num

/-- Witness for C1: the defined-trend case applied to the example table of
the spec. -/
theorem trend_vs_june_witness :
    compute_trend exTrendRows exJulyRow = some ((375000 : ℚ) / 900000 - 1) :=
  (trend_vs_june exTrendRows exJulyRow).2.2.2.2.1 2025 900000 375000 rfl
    (by simp only [june_totals, juneRows, exTrendRows, exJulyRow, RCell.val,
          DateCell.isJune, List.filter_cons, List.filter_nil]
        norm_num)
    (by norm_num) rfl

/-- Witness for C5 at concrete values and the source thresholds. -/
theorem classification_monotone_witness :
    Tier.rank (rag_indicator (1/2) 1 (8/10) false) ≤
      Tier.rank (rag_indicator 2 1 (8/10) false) ∧
    Tier.rank (rag_indicator 600 100 500 true) ≤
      Tier.rank (rag_indicator 50 100 500 true) :=
  ⟨((classification_monotone 1 (8/10) (1/2) 2 (by norm_num)).1 (by norm_num)).1,
   (classification_monotone 100 500 50 600 (by norm_num)).2 (by norm_num)⟩

/-- Helper: `all` over a mapped list tests the composed predicate. -/
theorem all_map_comp {α β : Type} (l : List α) (f : α → β) (p : β → Bool) :
    (l.map f).all p = l.all (fun a => p (f a)) := by
  induction l with
  | nil => rfl
  | cons a as ih => simp [List.all_cons, ih]

/-- C2 counterexample: in a table whose Total column has one defined cell
(5) and one unparsable cell, with Qty 2 and Harga 3 defined on both rows,
normalization keeps the second total undefined instead of recomputing it
as 2 * 3 — line 112 tests the whole column, not the individual cell. -/
theorem total_per_row_counterexample :
    exMixedTotals.rows.map (fun r => (r.qty, r.harga, r.total)) =
      [(RCell.num 2, RCell.num 3, RCell.num 5), (RCell.num 2, RCell.num 3, RCell.rbad)] ∧
    (normalize exMixedTotals).rows.map (fun r => r.total) =
      [RCell.num 5, RCell.rnan] ∧
    RCell.rnan ≠ RCell.num (2 * 3) := by
  refine ⟨rfl, ?_, by simp⟩
  decide

/-- C2 amended: when the Total column is absent, or every one of its
cells is undefined after coercion, normalization derives every total of
the table as Qty * Harga; the product of two defined cells is their exact
rational product, and it is undefined as soon as either operand is
undefined. -/
theorem total_column_derivation (t : SalesTable)
    (h : t.hasTotal = false ∨
      (t.rows.map (fun r => safe_convert_num r.total)).all RCell.isNA = true) :
    ((normalize t).rows.map (fun r => r.total) =
      t.rows.map (fun r => cellMul (safe_convert_num r.qty) (safe_convert_num r.harga))) ∧
    (∀ q p : ℚ, cellMul (RCell.num q) (RCell.num p) = RCell.num (q * p)) ∧
    (∀ a b : RCell, (safe_convert_num a).isNA = true ∨ (safe_convert_num b).isNA = true →
      cellMul (safe_convert_num a) (safe_convert_num b) = RCell.rnan) := by
  have key : (t.rows.map coerceRow).all (fun r => r.total.isNA)
      = (t.rows.map (fun r => safe_convert_num r.total)).all RCell.isNA := by
    rw [all_map_comp, all_map_comp]
    rfl
  have hnt : needTotal t = true := by
    rcases h with h | h
    · simp [needTotal, h]
    · simp [needTotal, key, h]
  refine ⟨?_, fun q p => rfl, ?_⟩
  · simp [normalize, hnt, deriveRow, List.map_map, coerceRow, Function.comp]
  · intro a b hab
    cases a <;> cases b <;> simp_all [safe_convert_num, cellMul, RCell.isNA]

/-- Witness for C2 amended, on a table whose Total column is entirely
unparsable. -/
theorem total_column_derivation_witness :
    (normalize exAllBadTotals).rows.map (fun r => r.total) =
      exAllBadTotals.rows.map
        (fun r => cellMul (safe_convert_num r.qty) (safe_convert_num r.harga)) :=
  (total_column_derivation exAllBadTotals (Or.inr (by decide))).1

/-- C6 counterexample: a pricing entry with purchase price 60000 and sale
price 0 has margin minus infinity — a value pandas treats as defined —
rather than the undefined margin the claim requires for a zero sale
price. -/
theorem margin_zero_sale_counterexample :
    margin_pct ⟨XVal.fin 60000, XVal.fin 0⟩ = XVal.ninf ∧
    (margin_pct ⟨XVal.fin 60000, XVal.fin 0⟩).isNA = false := by
  have h1 : margin_pct ⟨XVal.fin 60000, XVal.fin 0⟩ = XVal.ninf := by
    norm_num [margin_pct, XVal.sub, XVal.div]
  exact ⟨h1, by rw [h1]; rfl⟩

/-- C6 amended: margin is the exact (sale - purchase) / sale for a
defined nonzero sale price; it is undefined when either price is absent,
or when sale and purchase are both zero; a zero sale price with a nonzero
purchase price instead yields a signed infinity, which is defined; and
the average-margin KPI is undefined whenever all per-product margins are
undefined. -/
theorem margin_undefined_rules :
    (∀ s p : ℚ, s ≠ 0 →
      margin_pct ⟨XVal.fin p, XVal.fin s⟩ = XVal.fin ((s - p) / s)) ∧
    (∀ b : XVal, margin_pct ⟨b, XVal.nan⟩ = XVal.nan) ∧
    (∀ j : XVal, margin_pct ⟨XVal.nan, j⟩ = XVal.nan) ∧
    margin_pct ⟨XVal.fin 0, XVal.fin 0⟩ = XVal.nan ∧
    (∀ p : ℚ, p ≠ 0 → (margin_pct ⟨XVal.fin p, XVal.fin 0⟩).isNA = false) ∧
    (∀ pricing : List PricingRow,
      (pricing.map margin_pct).all XVal.isNA = true → avg_margin pricing = XVal.nan) := by
  refine ⟨?_, ?_, ?_, ?_, ?_, ?_⟩
  · intro s p hs
    simp [margin_pct, XVal.sub, XVal.div, hs]
  · intro b; cases b <;> rfl
  · intro j; cases j <;> rfl
  · norm_num [margin_pct, XVal.sub, XVal.div]
  · intro p hp
    have hp' : (0 : ℚ) - p ≠ 0 := fun hq => hp (by linarith)
    have hv : margin_pct ⟨XVal.fin p, XVal.fin 0⟩
        = if p < 0 then XVal.pinf else XVal.ninf := by
      simp [margin_pct, XVal.sub, XVal.div, hp, hp']
    rw [hv]
    split_ifs <;> rfl
  · intro pricing h
    simp [avg_margin, h]

/-- Witness for C6 amended, on the sample pricing row (purchase 60000,
sale 72000). -/
theorem margin_undefined_rules_witness :
    margin_pct ⟨XVal.fin 60000, XVal.fin 72000⟩ =
      XVal.fin ((72000 - 60000) / 72000) :=
  margin_undefined_rules.1 72000 60000 (by norm_num)

/-- C7 counterexample: a promo table whose single row has cost -5 (and
actual 10, target 0) has no row with cost greater than 0, yet the
combined ROI is the defined value -2 — the mean is not restricted to
positive-cost rows, only to rows whose ROI is defined. -/
theorem roi_cost_rows_counterexample :
    combined_roi exNegCost = some (-2) ∧
    exNegCost.filter
      (fun r =>
        match (safe_convert_num r.biaya).val with
        | some c => decide (0 < c)
        | none => false) = [] := by
  constructor
  · simp only [combined_roi, promoROI, exNegCost, safe_convert_num, RCell.val,
      List.filterMap_cons, List.filterMap_nil]
    norm_num
  · simp only [exNegCost, safe_convert_num, RCell.val, List.filter_cons, List.filter_nil]
    norm_num

/-- C7 amended: per-row ROI is undefined for an absent or zero cost and
equals (actual - target) / cost for a defined nonzero cost with defined
actual and target; the combined ROI is the mean over the rows whose ROI
is defined, and it is undefined exactly when every per-row ROI is
undefined. -/
theorem roi_mean_defined_rows (promo : PromoTable) :
    (∀ r : PromoRow, (safe_convert_num r.biaya).val = none → promoROI r = none) ∧
    (∀ r : PromoRow, (safe_convert_num r.biaya).val = some 0 → promoROI r = none) ∧
    (∀ r : PromoRow, ∀ c a t : ℚ, (safe_convert_num r.biaya).val = some c → c ≠ 0 →
      (safe_convert_num r.actual).val = some a → (safe_convert_num r.target).val = some t →
      promoROI r = some ((a - t) / c)) ∧
    (combined_roi promo = none ↔ ∀ r ∈ promo, promoROI r = none) ∧
    (promo.filterMap promoROI ≠ [] →
      combined_roi promo =
        some ((promo.filterMap promoROI).sum / (promo.filterMap promoROI).length)) := by
  refine ⟨?_, ?_, ?_, ?_, ?_⟩
  · intro r h; simp [promoROI, h]
  · intro r h; simp [promoROI, h]
  · intro r c a t hc hcne ha ht
    simp [promoROI, hc, hcne, ha, ht]
  · rw [← List.filterMap_eq_nil_iff]
    simp only [combined_roi]
    constructor
    · intro h
      by_contra hne
      have hfalse : (promo.filterMap promoROI).isEmpty = false := by
        simpa [List.isEmpty_iff] using hne
      simp [hfalse] at h
    · intro h
      simp [h]
  · intro hne
    have hfalse : (promo.filterMap promoROI).isEmpty = false := by
      simpa [List.isEmpty_iff] using hne
    simp [combined_roi, hfalse]

/-- Witness for C7 amended, on the sample promo row. -/
theorem roi_mean_defined_rows_witness :
    combined_roi exSamplePromo =
      some ((exSamplePromo.filterMap promoROI).sum /
        (exSamplePromo.filterMap promoROI).length) :=
  (roi_mean_defined_rows exSamplePromo).2.2.2.2
    (by simp only [exSamplePromo, promoROI, safe_convert_num, RCell.val,
          List.filterMap_cons, List.filterMap_nil]
        norm_num)

/-- Helper: numeric coercion is a no-op on already-coerced cells. -/
theorem safe_convert_num_idem (c : RCell) :
    safe_convert_num (safe_convert_num c) = safe_convert_num c := by
  cases c <;> rfl

/-- Helper: date coercion is a no-op on already-parsed date cells. -/
theorem parseDateCell_idem (d : DateCell) :
    parseDateCell (parseDateCell d) = parseDateCell d := by
  cases d <;> rfl

/-- Helper: a recomputed total (a product or an undefined cell) is fixed
by numeric coercion. -/
theorem safe_convert_num_cellMul (a b : RCell) :
    safe_convert_num (cellMul a b) = cellMul a b := by
  cases a <;> cases b <;> rfl

/-- Helper: a second cell-coercion pass is a no-op on a row produced by
the first normalization pass. -/
theorem coerceRow_derive_fix (b : Bool) (r : SRow) :
    coerceRow (deriveRow b (coerceRow r)) = deriveRow b (coerceRow r) := by
  cases b <;>
    simp [coerceRow, deriveRow, safe_convert_num_idem, parseDateCell_idem,
      safe_convert_num_cellMul]

/-- Helper: once a row carries a recomputed total, the derivation step is
a no-op on it whether or not it recomputes again. -/
theorem derive_fix_of_true (b1 : Bool) (r : SRow) :
    deriveRow b1 (deriveRow true (coerceRow r)) = deriveRow true (coerceRow r) := by
  cases b1 <;> simp [deriveRow, coerceRow]

/-- Helper: a derivation step that keeps the total is a no-op on any
first-pass row. -/
theorem derive_false_fix (b : Bool) (r : SRow) :
    deriveRow false (deriveRow b (coerceRow r)) = deriveRow b (coerceRow r) := by
  cases b <;> simp [deriveRow, coerceRow]

/-- C8: the sales normalization stage is idempotent — running it on its
own output changes nothing, because date and numeric coercion fix
already-coerced cells, the Year column is recomputed from the same parsed
date, and the Total recomputation condition of line 112 either fires
again with the same operands or does not fire at all. -/
theorem normalize_idempotent (t : SalesTable) : normalize (normalize t) = normalize t := by
  set b0 := needTotal t with hb0
  have hR : (normalize t).rows = t.rows.map (fun r => deriveRow b0 (coerceRow r)) := by
    simp only [normalize, List.map_map]
    rfl
  have hA : (normalize t).rows.map coerceRow = (normalize t).rows := by
    rw [hR, List.map_map]
    exact congrArg (fun fn => List.map fn t.rows)
      (funext fun r => coerceRow_derive_fix b0 r)
  by_cases hb : b0 = true
  · have hfix : ∀ b1 : Bool,
        (normalize t).rows.map (deriveRow b1) = (normalize t).rows := by
      intro b1
      rw [hR, hb, List.map_map]
      exact congrArg (fun fn => List.map fn t.rows)
        (funext fun r => derive_fix_of_true b1 r)
    calc normalize (normalize t)
        = ⟨((normalize t).rows.map coerceRow).map
            (deriveRow (needTotal (normalize t))), true⟩ := rfl
      _ = ⟨(normalize t).rows.map (deriveRow (needTotal (normalize t))), true⟩ := by
            rw [hA]
      _ = ⟨(normalize t).rows, true⟩ := by rw [hfix]
      _ = normalize t := rfl
  · have hb' : b0 = false := by simpa using hb
    have hcond : (t.rows.map coerceRow).all (fun r => r.total.isNA) = false := by
      have hx := hb0.symm.trans hb'
      simp only [needTotal] at hx
      exact (Bool.or_eq_false_iff.mp hx).2
    have hkeep : ((normalize t).rows.map coerceRow).all (fun r => r.total.isNA) = false := by
      rw [hA, hR, hb', all_map_comp]
      rw [all_map_comp] at hcond
      exact hcond
    have hb1 : needTotal (normalize t) = false := by
      have hflag : (normalize t).hasTotal = true := rfl
      simp [needTotal, hflag, hkeep]
    calc normalize (normalize t)
        = ⟨((normalize t).rows.map coerceRow).map
            (deriveRow (needTotal (normalize t))), true⟩ := rfl
      _ = ⟨(normalize t).rows.map (deriveRow false), true⟩ := by rw [hA, hb1]
      _ = ⟨(normalize t).rows, true⟩ := by
            rw [hR, hb', List.map_map]
            exact congrArg (fun l => SalesTable.mk l true)
              (congrArg (fun fn => List.map fn t.rows)
                (funext fun r => derive_false_fix false r))
      _ = normalize t := rfl

/-- C9: normalization is total (it is a Lean function, so no exception
can escape), keeps every row, and coerces each cell locally: row i of the
output has the parsed date, the coerced numeric cells, and the derived
year of row i of the input, its product name untouched — a coercion
failure in one cell degrades only that cell. -/
theorem normalization_cellwise (t : SalesTable) :
    (normalize t).rows.length = t.rows.length ∧
    ∀ i : Nat, ∀ h1 : i < (normalize t).rows.length, ∀ h2 : i < t.rows.length,
      ((normalize t).rows[i]).tanggal = parseDateCell ((t.rows[i]).tanggal) ∧
      ((normalize t).rows[i]).produk = (t.rows[i]).produk ∧
      ((normalize t).rows[i]).qty = safe_convert_num ((t.rows[i]).qty) ∧
      ((normalize t).rows[i]).harga = safe_convert_num ((t.rows[i]).harga) ∧
      ((normalize t).rows[i]).stokAwal = safe_convert_num ((t.rows[i]).stokAwal) ∧
      ((normalize t).rows[i]).sisaStok = safe_convert_num ((t.rows[i]).sisaStok) ∧
      ((normalize t).rows[i]).year = DateCell.yearOf (parseDateCell ((t.rows[i]).tanggal)) := by
  constructor
  · simp [normalize]
  · intro i h1 h2
    have hR : (normalize t).rows = t.rows.map (fun r => deriveRow (needTotal t) (coerceRow r)) := by
      simp only [normalize, List.map_map]
      rfl
    have hg : (normalize t).rows[i] = deriveRow (needTotal t) (coerceRow (t.rows[i])) := by
      simp only [hR]
      rw [List.getElem_map]
    rw [hg]
    exact ⟨rfl, rfl, rfl, rfl, rfl, rfl, rfl⟩

/-- Witness for C9 on a one-row table with an unparsable date and an
unparsable quantity: the date and quantity degrade to undefined while the
defined price survives. -/
theorem normalization_cellwise_witness :
    ((normalize exBadCells).rows.get
        ⟨0, (by decide : (0 : Nat) < (normalize exBadCells).rows.length)⟩).qty
      = safe_convert_num ((exBadCells.rows.get
          ⟨0, (by decide : (0 : Nat) < exBadCells.rows.length)⟩).qty) :=
  (((normalization_cellwise exBadCells).2 0 (by decide) (by decide)).2.2.1)

end Groseri
